import Mathlib

/-!
# Verification of the memory / self-evolution layer of the harness

Shallow embedding, translated from the Python sources:

* `src/hooks/capture-session.py` — skill extraction and merge-on-duplicate
  (`extract_skill`, `save_skill`, `capture_session`);
* `src/scripts/memory-retrieval.py` — trigger/keyword skill matching
  (`match_skills`);
* `src/scripts/context-compression.py` — transcript compression and the
  persistent digest (`compress_messages`, `update_persistent_summary`);
* `src/scripts/harness-evolve.py` — the proposal pipeline
  (`generate_proposals`, `apply_proposal`, `apply_skill_add`, `rollback_last`).

Modelling conventions, used uniformly below:

* Python strings are Lean `String`s; `x in s` (substring test) is `strContains`.
* Wall-clock timestamps are `Nat` values (seconds).  `strftime('%Y%m%d_%H%M%S')`
  is second-granular and injective on seconds, so it is modelled by `toString`
  of the second count.  Where a function calls `datetime.now()` repeatedly, the
  embedding threads a clock oracle `clock : Nat → Nat` (call index ↦ seconds).
* `hashlib.md5(s).hexdigest()` is modelled by an arbitrary function parameter
  `md5 : String → String`: the only property the code relies on is that it is
  a function (same input, same digest).
* `json.dumps` of a record is modelled by a serializer parameter; byte-level
  file contents are `String`s.
* Python `set` iteration order is unspecified; `list(set(xs))` is modelled by
  an oracle `pyset : List String → List String` constrained (in theorem
  hypotheses) to produce a permutation of `xs.dedup`.
* Python floats are modelled as `ℚ`.
* Dictionary fields that the code reads with `.get(k, default)` and that may
  be absent are `Option` fields.
-/

/-- Python's `needle in hay` substring test on strings. -/
def strContains (hay needle : String) : Bool :=
  hay.data.tails.any (fun t => needle.data.isPrefixOf t)

/-- Python's `s.lower()` (inputs are ASCII; core's `String.toLower` is
extensionally the same but does not reduce in the kernel). -/
def strToLower (s : String) : String :=
  String.mk (s.data.map Char.toLower)

/-- Split a character list at every character satisfying `p`, keeping empty
pieces — the semantics of `re.split` on a single-character class and of
core's `String.split`. -/
def splitChars (p : Char → Bool) : List Char → List (List Char)
  | [] => [[]]
  | c :: cs =>
    if p c then [] :: splitChars p cs
    else
      match splitChars p cs with
      | [] => [[c]]
      | g :: gs => (c :: g) :: gs

/-- Core `String.split` on a character predicate, via `splitChars`. -/
def strSplit (p : Char → Bool) (s : String) : List String :=
  (splitChars p s.data).map String.mk

/-- Python's `s.strip()`: drop leading and trailing whitespace. -/
def strTrim (s : String) : String :=
  String.mk
    (((s.data.dropWhile Char.isWhitespace).reverse.dropWhile
      Char.isWhitespace).reverse)

/-- Python's `s.replace(a, b)` for single-character `a`, `b` — the only form
the sources use (`' '↔'-'` rewrites). -/
def strReplaceChar (s : String) (a b : Char) : String :=
  String.mk (s.data.map (fun c => if c = a then b else c))

/-- Python's `l[-n:]` on a list (for `n = 0` Python gives the whole list). -/
def pyTakeLast (n : Nat) (l : List α) : List α :=
  if n = 0 then l else l.drop (l.length - n)

/-- Python's `l[a:-b]` slice (for `b = 0` the stop index `-0` is `0`, giving `[]`). -/
def pySliceToNeg (a b : Nat) (l : List α) : List α :=
  if b = 0 then [] else (l.drop a).take (l.length - a - b)

/-- A `\w` character of the regexes used in the sources (ASCII inputs). -/
def wordChar (c : Char) : Bool :=
  c.isAlphanum || c = '_'

/-- Python `re.findall(r'\w+', s)`: the maximal runs of word characters of `s`. -/
def findWordTokens (s : String) : List String :=
  (strSplit (fun c => !wordChar c) s).filter (fun t => t ≠ "")

/-- Python's `s.split()` (split on whitespace runs, discarding empties). -/
def pySplitWs (s : String) : List String :=
  (strSplit (fun c => c.isWhitespace) s).filter (fun t => t ≠ "")

/-! ## Skill records (`skills.jsonl`)

The record layout written by `capture-session.py` and read back by
`memory-retrieval.py`.  Timestamps (`last_used`) are seconds, see above. -/

structure Skill where
  skill_id : String
  name : String
  description : String
  triggers : List String
  tools_typically_used : List String
  estimated_tokens : Nat
  success_rate : ℚ
  times_used : Nat
  last_used : Option Nat
  created_from_session : String
  key_steps : List String
deriving Repr, DecidableEq

/-! ## `capture-session.py` -/

/-- The session-record dictionary built by `capture_session` (and consumed by
`extract_skill` via `.get` with defaults, hence the `Option` fields).
`key_decisions` is read by `extract_skill` but never written by
`capture_session`. -/
structure SessionData where
  session_id : Option String
  timestamp_start : Option Nat
  timestamp_end : Option Nat
  project_path : Option String
  initial_task : Option String
  outcome : Option String
  tools_used : Option (List String)
  files_modified : Option (List String)
  decisions_made : Option (List String)
  tokens_used : Option Nat
  key_decisions : Option (List String)
deriving Repr, DecidableEq

/-- The fixed trigger vocabulary of `extract_skill` (capture-session.py:95). -/
def captureKeywords : List String :=
  ["auth", "test", "api", "database", "fix", "add", "create",
   "implement", "refactor", "update", "delete", "remove",
   "component", "hook", "middleware", "config", "deploy"]

/-- Embeds `extract_skill` (capture-session.py:76).  `now` is the single
`datetime.now()` call; `md5` the digest oracle. -/
def extract_skill (md5 : String → String) (now : Nat) (sd : SessionData) :
    Option Skill :=
  if sd.outcome ≠ some "success" then none
  else
    let task := sd.initial_task.getD ""
    if task = "" ∨ task.length < 10 then none
    else
      let task_lower := strToLower task
      let kwTriggers := captureKeywords.filter (fun kw => strContains task_lower kw)
      let triggers := if kwTriggers = [] then (pySplitWs task_lower).take 3 else kwTriggers
      some {
        skill_id := "skill_" ++ (md5 task).take 8
        name := strToLower (strReplaceChar (task.take 50) ' ' '-')
        description := task
        triggers := triggers
        tools_typically_used := sd.tools_used.getD []
        estimated_tokens := sd.tokens_used.getD 0
        success_rate := 1
        times_used := 1
        last_used := some now
        created_from_session := sd.session_id.getD ""
        key_steps := sd.key_decisions.getD [] }

/-- The in-place update loop of `save_skill` (capture-session.py:139-150):
the first stored skill with the incoming `skill_id` is updated.  Note the
source mutates `times_used` *before* reading it in the `success_rate`
formula, so the mean is taken with the already-incremented count. -/
def updateFirstSkill (skill : Skill) : List Skill → Option (List Skill)
  | [] => none
  | e :: rest =>
    if e.skill_id = skill.skill_id then
      some ({ e with
                times_used := e.times_used + 1
                last_used := skill.last_used
                success_rate :=
                  (e.success_rate * ((e.times_used : ℚ) + 1) + 1) /
                    (((e.times_used : ℚ) + 1) + 1) } :: rest)
    else (updateFirstSkill skill rest).map (fun l => e :: l)

/-- Embeds `save_skill` (capture-session.py:123): merge into the first record with
the same `skill_id`, else append; the whole collection is rewritten. -/
def save_skill (skill : Skill) (existing_skills : List Skill) : List Skill :=
  match updateFirstSkill skill existing_skills with
  | some updated => updated
  | none => existing_skills ++ [skill]

/-- A skill record with the given identifying fields and neutral remaining
fields; used to build concrete stores in counterexamples and witnesses. -/
def sampleSkill (id desc : String) (trigs : List String) (rate : ℚ) (used : Nat) :
    Skill :=
  { skill_id := id, name := "", description := desc, triggers := trigs,
    tools_typically_used := [], estimated_tokens := 0, success_rate := rate,
    times_used := used, last_used := none, created_from_session := "",
    key_steps := [] }

/-- A session record for the given task with a success outcome and neutral
remaining fields. -/
def sampleSession (task : String) : SessionData :=
  { session_id := some "sess", timestamp_start := none, timestamp_end := none,
    project_path := none, initial_task := some task, outcome := some "success",
    tools_used := some [], files_modified := none, decisions_made := none,
    tokens_used := some 0, key_decisions := none }

/-- The working-memory buffer (`context-buffer.json`) as read by
`capture_session` via `.get` with defaults. -/
structure WorkingMem where
  started_at : Option Nat
  project_path : Option String
  current_task : Option String
  tools_used : Option (List String)
  files_modified : Option (List String)
  decisions_made : Option (List String)
  accumulated_context_tokens : Option Nat
deriving Repr, DecidableEq

/-- The empty dictionary `load_working_memory` returns when no buffer file
exists or it fails to parse. -/
def emptyWorking : WorkingMem :=
  { started_at := none, project_path := none, current_task := none,
    tools_used := none, files_modified := none, decisions_made := none,
    accumulated_context_tokens := none }

/-- An outcome record appended to `successes.jsonl` / `failures.jsonl`
(capture-session.py:196). -/
structure OutcomeRecord where
  timestamp : Nat
  session_id : String
  task : String
  outcome : String
  tokens : Nat
  project : String
deriving Repr, DecidableEq

/-- The durable state touched by `capture-session.py`: the per-session record
files, the two outcome collections, the skill collection, and the
working-memory buffer. -/
structure CaptureState where
  sessions : List (String × SessionData)
  successes : List OutcomeRecord
  failures : List OutcomeRecord
  skills : List Skill
  working : Option WorkingMem
deriving Repr, DecidableEq

/-- Python `%03d` formatting of the session sequence number. -/
def pad3 (n : Nat) : String :=
  if n < 10 then "00" ++ toString n
  else if n < 100 then "0" ++ toString n
  else toString n

/-- Embeds `get_session_id` (capture-session.py:38): today's date plus one more than
the number of already-saved sessions whose id starts with today's date. -/
def get_session_id (today : String) (sessions : List (String × SessionData)) :
    String :=
  today ++ "_" ++
    pad3 ((sessions.filter (fun kv => (today ++ "_").isPrefixOf kv.1)).length + 1)

/-- The `session_data` dictionary assembled by `capture_session`
(capture-session.py:179); `outcome` is the literal `'success'`. -/
def sessionRecordOf (now : Nat) (cwd session_id : String) (w : WorkingMem) :
    SessionData :=
  { session_id := some session_id
    timestamp_start := some (w.started_at.getD now)
    timestamp_end := some now
    project_path := some (w.project_path.getD cwd)
    initial_task := some (w.current_task.getD "Unknown task")
    outcome := some "success"
    tools_used := some (w.tools_used.getD [])
    files_modified := some (w.files_modified.getD [])
    decisions_made := some (w.decisions_made.getD [])
    tokens_used := some (w.accumulated_context_tokens.getD 0)
    key_decisions := none }

/-- The `outcome_record` dictionary assembled by `capture_session`
(capture-session.py:196). -/
def outcomeRecordOf (now : Nat) (session_id cwd : String) (w : WorkingMem) :
    OutcomeRecord :=
  { timestamp := now
    session_id := session_id
    task := w.current_task.getD "Unknown task"
    outcome := "success"
    tokens := w.accumulated_context_tokens.getD 0
    project := w.project_path.getD cwd }

/-- Embeds `capture_session` (capture-session.py:168).  `now` models the
`datetime.now()` calls of one invocation (their values only feed metadata);
`today` the date used for the session id; `cwd` `os.getcwd()`.  The source
sets `outcome` to the literal `'success'` (line 185) and then branches on it
(line 205); the branch is embedded as written. -/
def capture_session (md5 : String → String) (now : Nat) (today cwd : String)
    (st : CaptureState) : CaptureState :=
  let w := st.working.getD emptyWorking
  let session_id := get_session_id today st.sessions
  let sd : SessionData := sessionRecordOf now cwd session_id w
  let st1 := { st with sessions := st.sessions ++ [(session_id, sd)] }
  let orec : OutcomeRecord := outcomeRecordOf now session_id cwd w
  let afterOutcome :=
    if sd.outcome = some "success" then
      let st2 := { st1 with successes := st1.successes ++ [orec] }
      match extract_skill md5 now sd with
      | some sk => { st2 with skills := save_skill sk st2.skills }
      | none => st2
    else
      { st1 with failures := st1.failures ++ [orec] }
  { afterOutcome with working := none }

/-- A concrete capture state whose working memory holds the task
"implement authentication". -/
def c10Working : WorkingMem :=
  { started_at := none, project_path := none,
    current_task := some "implement authentication", tools_used := none,
    files_modified := none, decisions_made := none,
    accumulated_context_tokens := none }

def c10State : CaptureState :=
  { sessions := [], successes := [], failures := [], skills := [],
    working := some c10Working }

/-! ## `memory-retrieval.py` -/

/-- Sort key of `match_skills`: descending by the first (score) component.
Python's `list.sort(key=lambda x: x[0], reverse=True)` is a stable descending
sort; since the output of a stable sort is unique, it is modelled by
`List.insertionSort` with this relation. -/
def pairDescLe (a b : Nat × Skill) : Prop :=
  b.1 ≤ a.1

instance : DecidableRel pairDescLe := fun a b => by
  unfold pairDescLe
  infer_instance

/-- The match score of memory-retrieval.py:110-114: `trigger_matches` counts
the skill's triggers whose lowercased text occurs in the lowercased task;
`word_matches` counts the distinct `\w+` tokens of the lowercased task
(`task_words`, a set) occurring as substrings of the lowercased description;
the score is `2 * trigger_matches + word_matches`. -/
def matchScore (task : String) (skill : Skill) : Nat :=
  2 * (skill.triggers.filter (fun t => strContains (strToLower task) (strToLower t))).length
    + (((findWordTokens (strToLower task)).dedup).filter
        (fun w => strContains (strToLower skill.description) w)).length

/-- Embeds `match_skills` (memory-retrieval.py:93): score each skill by
`matchScore`, keep positive scores, stable-sort descending, return top 3. -/
def match_skills (task : String) (skills : List Skill) : List Skill :=
  if task = "" then []
  else
    let scored_skills := skills.filterMap (fun skill =>
      if 0 < matchScore task skill then some (matchScore task skill, skill)
      else none)
    ((scored_skills.insertionSort pairDescLe).take 3).map (fun p => p.2)

/-- The score as claim C7 states it: the word component counts distinct
tokenized words of the skill's *description* that literally appear in the
lowercased task text. -/
def claimedScoreC7 (task : String) (skill : Skill) : Nat :=
  2 * (skill.triggers.filter (fun t => strContains (strToLower task) (strToLower t))).length
    + (((findWordTokens (strToLower skill.description)).dedup).filter
        (fun w => strContains (strToLower task) w)).length

/-- Descending-score ordering on skills for a fixed task. -/
def skillDescLe (task : String) (s t : Skill) : Prop :=
  matchScore task t ≤ matchScore task s

instance (task : String) : DecidableRel (skillDescLe task) := fun s t => by
  unfold skillDescLe
  infer_instance

/-- The relation "descending score, ties by original position": the lexicographic order on
(score, index) used to state the amended claim C7. -/
def lexScoreIdx (task : String) (p q : Nat × Skill) : Prop :=
  matchScore task q.2 < matchScore task p.2 ∨
    (matchScore task p.2 = matchScore task q.2 ∧ p.1 ≤ q.1)

instance (task : String) : DecidableRel (lexScoreIdx task) := fun p q => by
  unfold lexScoreIdx
  infer_instance

/-- The amended claim C7 as a definition: drop the zero-score skills, order
by descending `matchScore` with ties broken by original collection order
(indices), and return the first three. -/
def amendedMatch (task : String) (skills : List Skill) : List Skill :=
  if task = "" then []
  else
    let pos := skills.filter (fun s => 0 < matchScore task s)
    (((pos.enum).insertionSort (lexScoreIdx task)).map (fun p => p.2)).take 3

/-! ## `context-compression.py` -/

/-- An interaction record.  `content` models `msg.get('content', '')` after
the source's list-normalisation (a `list`-valued content is joined into one
string before use); `strRepr` models Python's `str(m)` of the whole message
dictionary, used by the token estimator and the file-pattern scan. -/
structure Message where
  content : String
  strRepr : String
deriving Repr, DecidableEq

/-- Embeds `estimate_tokens` (context-compression.py:33): `len(text) // 4`. -/
def estimate_tokens (text : String) : Nat :=
  text.length / 4

/-- The category → keyword table of `extract_key_points`
(context-compression.py:45), in dictionary insertion order. -/
def keyPointKeywords : List (String × List String) :=
  [("decision", ["decided", "chose", "using", "will use", "going with"]),
   ("action", ["created", "modified", "deleted", "added", "removed", "fixed"]),
   ("error", ["error", "failed", "issue", "problem", "bug"]),
   ("finding", ["found", "discovered", "noticed", "identified"])]

/-- One category of the `extract_key_points` loop: the first keyword present
in the lowercased content selects, among the `[.!?]`-split sentences, the
first one containing it whose stripped length exceeds 20; the stripped
sentence is truncated to 100 characters and tagged. -/
def keyPointOfCategory (content : String) (cat : String) (kws : List String) :
    Option String :=
  match kws.find? (fun kw => strContains (strToLower content) kw) with
  | none => none
  | some kw =>
    let sentences := strSplit (fun c => c = '.' || c = '!' || c = '?') content
    (sentences.find? (fun sent =>
        strContains (strToLower sent) kw && decide (20 < (strTrim sent).length))).map
      (fun sent => "[" ++ cat ++ "] " ++ (strTrim sent).take 100)

/-- Embeds `extract_key_points` (context-compression.py:38): per message and per
category collect at most one tagged sentence; dedupe via a Python `set`
(iteration order: the `pyset` oracle) and cap at 10. -/
def extract_key_points (pyset : List String → List String)
    (messages : List Message) : List String :=
  (pyset (messages.flatMap (fun msg =>
    keyPointKeywords.filterMap (fun ck =>
      keyPointOfCategory msg.content ck.1 ck.2)))).take 10

/-- The fixed tool vocabulary of the middle-section tally
(context-compression.py:127). -/
def toolNames : List String :=
  ["Read", "Write", "Edit", "Grep", "Glob", "Bash", "Task"]

/-- Increment a tool's tally, inserting at the end on first sight —
Python dict insertion-order semantics. -/
def bumpTool : List (String × Nat) → String → List (String × Nat)
  | [], t => [(t, 1)]
  | (u, c) :: rest, t =>
    if u = t then (u, c + 1) :: rest else (u, c) :: bumpTool rest t

/-- The tool-usage tally of the middle section (context-compression.py:124):
for each message, each tool name occurring in `str(content)` is counted. -/
def toolCounts (middle : List Message) : List (String × Nat) :=
  middle.foldl (fun counts msg =>
    toolNames.foldl (fun cs tool =>
      if strContains msg.content tool then bumpTool cs tool else cs) counts) []

/-- Python's `str(middle)` for a list of message dictionaries: the element
reprs joined by `", "` inside brackets. -/
def pyListRepr (middle : List Message) : String :=
  "[" ++ String.intercalate ", " (middle.map (fun m => m.strRepr)) ++ "]"

/-- A quote character of the file-pattern regex `["\']([^"\']+\.[a-z]+)["\']`. -/
def isQuote (c : Char) : Bool :=
  c = '"' || c = '\''

/-- Whether the quote-free run `C` matches the group `[^"\']+\.[a-z]+` ending
exactly at the closing quote: its final `.`-segment is a nonempty run of
lowercase letters, and at least one character precedes that dot. -/
def fileGroupOk (C : List Char) : Bool :=
  let parts := splitChars (fun c => c = '.') C
  decide (2 ≤ parts.length) &&
    (match parts.getLast? with
     | some ext => decide (ext ≠ []) && ext.all Char.isLower &&
         decide (ext.length + 2 ≤ C.length)
     | none => false)

/-- Python `re.findall(r'["\']([^"\']+\.[a-z]+)["\']', s)`: leftmost, non-overlapping
matches; a failed candidate resumes at its closing quote, a successful one
after it. -/
def findFilePatterns : List Char → List String
  | [] => []
  | c :: cs =>
    if isQuote c then
      match h : cs.dropWhile (fun d => !isQuote d) with
      | [] => []
      | q :: rest' =>
        if fileGroupOk (cs.takeWhile (fun d => !isQuote d)) then
          String.mk (cs.takeWhile (fun d => !isQuote d)) ::
            findFilePatterns rest'
        else findFilePatterns (q :: rest')
    else findFilePatterns cs
termination_by l => l.length
decreasing_by
  · have hle := (List.dropWhile_sublist (fun d => !isQuote d) (l := cs)).length_le
    rw [h] at hle
    simp at hle ⊢
    omega
  · have hle := (List.dropWhile_sublist (fun d => !isQuote d) (l := cs)).length_le
    rw [h] at hle
    simp at hle ⊢
    omega
  · simp

/-- Python's `round(q, 1)` (round half to even), on the `ℚ` model of floats. -/
def pyRound1 (q : ℚ) : ℚ :=
  let t := 10 * q
  let f : ℤ := Int.floor t
  let r := t - (f : ℚ)
  let n : ℤ :=
    if r < 1/2 then f
    else if 1/2 < r then f + 1
    else if f % 2 = 0 then f else f + 1
  (n : ℚ) / 10

/-- The result dictionary of `compress_messages`.  The early return for an
empty input (context-compression.py:95) omits the count and reduction keys,
hence the `Option` fields. -/
structure CompressResult where
  head : List Message
  summary : String
  tail : List Message
  key_points : List String
  original_count : Option Nat
  compressed_count : Option Nat
  token_reduction : Option ℚ
deriving Repr, DecidableEq

/-- Embeds `compress_messages` (context-compression.py:74). -/
def compress_messages (pyset : List String → List String)
    (messages : List Message) (head_count tail_count max_tokens : Nat) :
    CompressResult :=
  if messages = [] then
    { head := [], summary := "", tail := [], key_points := [],
      original_count := none, compressed_count := none,
      token_reduction := none }
  else
    let total_messages := messages.length
    let total_tokens := (messages.map (fun m => estimate_tokens m.strRepr)).sum
    if total_tokens ≤ max_tokens then
      { head := messages, summary := "", tail := [], key_points := [],
        original_count := some total_messages,
        compressed_count := some total_messages,
        token_reduction := some 0 }
    else
      let head := messages.take head_count
      let tail := if head_count + tail_count < messages.length
                  then pyTakeLast tail_count messages else []
      let middle := if tail ≠ [] then pySliceToNeg head_count tail_count messages
                    else messages.drop head_count
      let key_points := extract_key_points pyset middle
      let tool_counts := toolCounts middle
      let parts1 : List String :=
        if tool_counts ≠ [] then
          ["Tools used: " ++ String.intercalate ", "
            (tool_counts.map (fun tc => tc.1 ++ ": " ++ toString tc.2))]
        else []
      let file_patterns := findFilePatterns (pyListRepr middle).data
      let parts2 : List String :=
        if file_patterns ≠ [] then
          ["Files touched: " ++
            String.intercalate ", " ((pyset file_patterns).take 5)]
        else []
      let parts3 : List String :=
        if key_points ≠ [] then
          "Key points:" :: (key_points.take 5).map (fun kp => "  - " ++ kp)
        else []
      let parts := parts1 ++ parts2 ++ parts3
      let summary := if parts ≠ [] then String.intercalate "\n" parts
                     else "(" ++ toString middle.length ++ " messages summarized)"
      let compressed_tokens :=
        (head.map (fun m => estimate_tokens m.strRepr)).sum +
          estimate_tokens summary +
          (tail.map (fun m => estimate_tokens m.strRepr)).sum
      let reduction : ℚ :=
        if 0 < total_tokens then
          ((total_tokens : ℚ) - (compressed_tokens : ℚ)) / (total_tokens : ℚ) * 100
        else 0
      { head := head, summary := summary, tail := tail,
        key_points := key_points,
        original_count := some total_messages,
        compressed_count := some (head_count + 1 + tail.length),
        token_reduction := some (pyRound1 reduction) }

/-- The persistent digest (`persistent-summary.json`): summaries are
(timestamp, text) pairs. -/
structure PersistentDigest where
  summaries : List (Nat × String)
  accumulated_key_points : List String
  last_updated : Option Nat
deriving Repr, DecidableEq

/-- Embeds `update_persistent_summary` (context-compression.py:188) followed by
`save_persistent_summary` (which stamps `last_updated`): append the new
summary keeping the last 5, fold the new key points into the accumulated
`set` and keep the last 20 of its enumeration (the `pyset` oracle). -/
def update_persistent_summary (pyset : List String → List String) (now : Nat)
    (new_summary : String) (new_key_points : List String)
    (persistent : PersistentDigest) : PersistentDigest :=
  { summaries := pyTakeLast 5 (persistent.summaries ++ [(now, new_summary)])
    accumulated_key_points :=
      pyTakeLast 20
        (pyset (persistent.accumulated_key_points ++ new_key_points))
    last_updated := some now }

/-- The 20 distinct key points already accumulated in the C9 counterexample
digest. -/
def c9Old : List String :=
  ["p01", "p02", "p03", "p04", "p05", "p06", "p07", "p08", "p09", "p10",
   "p11", "p12", "p13", "p14", "p15", "p16", "p17", "p18", "p19", "p20"]

/-- A legal Python-set enumeration order that lists the most recently added
element first: rotate the last element of the deduplicated list to the
front. -/
def pysetRotate (l : List String) : List String :=
  match l.dedup.reverse with
  | [] => []
  | x :: rest => x :: rest.reverse

/-! ## `harness-evolve.py`

The analysis input is flattened from the nested dictionary the source reads:
`analysis['memory']['common_missed_patterns']`,
`analysis['routing']['efficiency_issues']`,
`analysis['sessions']['success_rate']`, `analysis['recommendations']`.
`Option Analysis` with `none` models a missing or empty analysis file
(`not analysis` in the source).  The proposal and history stores are the
parsed views of `proposals.jsonl` / `history.jsonl`; the skill collection
file is its raw byte content (a `String`); backups are an association list
path ↦ content.  `generate_proposal_id` formats `datetime.now()` with
`'%Y%m%d_%H%M%S'` — second-granular and injective on seconds — modelled by
`toString` of the clock's second count. -/

/-- The skill payload built by `propose_skill_from_pattern`
(harness-evolve.py:163). -/
structure EvoSkill where
  skill_id : String
  name : String
  description : String
  triggers : List String
  prerequisites : List String
  key_steps : List String
  tools_typically_used : List String
  estimated_tokens : Nat
  success_rate : ℚ
  times_used : Nat
  last_used : Option Nat
  created_from_session : String
deriving Repr, DecidableEq

/-- The payload of a routing_update proposal (harness-evolve.py:185). -/
structure RoutingData where
  from_tool : String
  to_tool : String
  pattern : String
deriving Repr, DecidableEq

/-- The payload of a threshold_adjust proposal (harness-evolve.py:259). -/
structure ThresholdData where
  metric : String
  current_value : ℚ
  suggested_value : ℚ
deriving Repr, DecidableEq

/-- An analysis recommendation: a severity tag plus its remaining content,
wrapped verbatim into manual_review proposals. -/
structure Recommendation where
  severity : Option String
  text : String
deriving Repr, DecidableEq

/-- The type-specific `data` payload of a proposal. -/
inductive PropData where
  | skillAdd (sk : EvoSkill)
  | routing (r : RoutingData)
  | threshold (t : ThresholdData)
  | review (r : Recommendation)
deriving Repr, DecidableEq

/-- A proposal record (`proposals.jsonl`).  Fields the source sometimes
omits (the info proposal has no status/reason/data) are `Option`s. -/
structure Proposal where
  id : String
  ptype : String
  data : Option PropData
  reason : Option String
  message : Option String
  status : Option String
  timestamp : Option Nat
  updated_at : Option Nat
deriving Repr, DecidableEq

/-- A history record (`history.jsonl`). -/
structure HistEntry where
  timestamp : Nat
  htype : String
  proposal_id : Option String
  skill_id : Option String
  data : Option PropData
  note : Option String
  backup : Option String
  rolled_back : Option String
  restored_from : Option String
deriving Repr, DecidableEq

/-- The durable state touched by harness-evolve.py. -/
structure EvoState where
  skillsFile : Option String
  proposals : List Proposal
  history : List HistEntry
  backups : List (String × String)
deriving Repr, DecidableEq

/-- One routing-efficiency issue of the analysis input. -/
structure Issue where
  issue : Option String
  count : Option Nat
deriving Repr, DecidableEq

/-- The flattened analysis report (see the section comment). -/
structure Analysis where
  status : Option String
  common_missed_patterns : List (String × Nat)
  efficiency_issues : List Issue
  success_rate : Option ℚ
  recommendations : List Recommendation
deriving Repr, DecidableEq

/-- Embeds `generate_proposal_id` (harness-evolve.py:69): `prop_` plus the
second-granular timestamp. -/
def generate_proposal_id (t : Nat) : String :=
  "prop_" ++ toString t

/-- Association-list lookup for the backup directory. -/
def lookupBackup : List (String × String) → String → Option String
  | [], _ => none
  | (m, d) :: rest, n => if m = n then some d else lookupBackup rest n

/-- Association-list write for the backup directory (`shutil.copy`
overwrites an existing file of the same name). -/
def insertBackup : List (String × String) → String → String → List (String × String)
  | [], n, c => [(n, c)]
  | (m, d) :: rest, n, c =>
    if m = n then (m, c) :: rest else (m, d) :: insertBackup rest n c

/-- Embeds `propose_skill_from_pattern` (harness-evolve.py:151): suppressed when an
existing skill has a trigger containing the pattern (case-insensitive);
otherwise the (data, reason) pair of a skill_add proposal. -/
def propose_skill_from_pattern (md5 : String → String) (skills : List Skill)
    (pattern : String) (count : Nat) : Option (PropData × String) :=
  if skills.any (fun skill => skill.triggers.any
      (fun trigger => strContains (strToLower trigger) (strToLower pattern))) then
    none
  else
    some (PropData.skillAdd {
        skill_id := "skill_auto_" ++ (md5 pattern).take 8
        name := "auto-" ++ strReplaceChar pattern ' ' '-'
        description := "Auto-generated skill for: " ++ pattern
        triggers := [pattern, strReplaceChar pattern '-' ' ']
        prerequisites := []
        key_steps := ["Step 1: TBD - Fill in based on successful patterns"]
        tools_typically_used := ["Read", "Edit", "Bash"]
        estimated_tokens := 2000
        success_rate := 0
        times_used := 0
        last_used := none
        created_from_session := "auto_evolution" },
      "Pattern \"" ++ pattern ++ "\" appeared " ++ toString count ++
        " times without matching skill")

/-- Embeds `propose_routing_update` (harness-evolve.py:183): the (data, reason)
pair of a routing_update proposal. -/
def propose_routing_update (tool alternative : String) (count : Nat) :
    PropData × String :=
  (PropData.routing {
      from_tool := tool
      to_tool := alternative
      pattern := "auto-detected from " ++ toString count ++ " occurrences" },
    alternative ++ " was suggested " ++ toString count ++ " times when " ++
      tool ++ " was used")

/-- Python `re.search(r'(\w+)->(\w+)', s)`: the leftmost occurrence of a word-run
followed by `->` and a word-run; greedy groups are the maximal runs (a
shortened first group would have to be followed by a word character, never
`-`, so the no-backtracking scan is exact). -/
def findToolPair : List Char → Option (String × String)
  | [] => none
  | c :: cs =>
    if wordChar c then
      match (c :: cs).dropWhile wordChar with
      | '-' :: '>' :: rest2 =>
        let run2 := rest2.takeWhile wordChar
        if run2 = [] then findToolPair cs
        else some (String.mk ((c :: cs).takeWhile wordChar), String.mk run2)
      | _ => findToolPair cs
    else findToolPair cs

/-- Section 1 of `generate_proposals` (harness-evolve.py:221-232): one
skill_add proposal per missed pattern with count ≥ 3, unless suppressed.
The clock counter `k` advances by one per `datetime.now()` call (id, then
timestamp). -/
def genFromPatterns (md5 : String → String) (clock : Nat → Nat)
    (skills : List Skill) : List (String × Nat) → Nat → Nat × List Proposal
  | [], k => (k, [])
  | (pat, cnt) :: rest, k =>
    if 3 ≤ cnt then
      match propose_skill_from_pattern md5 skills pat cnt with
      | some dr =>
        let p : Proposal := {
          id := generate_proposal_id (clock k)
          ptype := "skill_add"
          data := some dr.1
          reason := some dr.2
          message := none
          status := some "pending"
          timestamp := some (clock (k + 1))
          updated_at := none }
        let kps := genFromPatterns md5 clock skills rest (k + 2)
        (kps.1, p :: kps.2)
      | none => genFromPatterns md5 clock skills rest k
    else genFromPatterns md5 clock skills rest k

/-- Section 2 of `generate_proposals` (harness-evolve.py:234-246): one
routing_update proposal per efficiency issue whose text contains
"pattern" (case-insensitive) *and* a `\w+->\w+` pair. -/
def genFromIssues (clock : Nat → Nat) : List Issue → Nat → Nat × List Proposal
  | [], k => (k, [])
  | issue :: rest, k =>
    if strContains (strToLower (issue.issue.getD "")) "pattern" then
      match findToolPair (issue.issue.getD "").data with
      | some ab =>
        let dr := propose_routing_update ab.1 ab.2 (issue.count.getD 0)
        let p : Proposal := {
          id := generate_proposal_id (clock k)
          ptype := "routing_update"
          data := some dr.1
          reason := some dr.2
          message := none
          status := some "pending"
          timestamp := some (clock (k + 1))
          updated_at := none }
        let kps := genFromIssues clock rest (k + 2)
        (kps.1, p :: kps.2)
      | none => genFromIssues clock rest k
    else genFromIssues clock rest k

/-- Section 3 of `generate_proposals` (harness-evolve.py:248-265): a
threshold_adjust proposal when the analysed success rate is below 60. -/
def genThreshold (clock : Nat → Nat) (a : Analysis) (k : Nat) :
    Nat × List Proposal :=
  let success_rate := a.success_rate.getD 100
  if success_rate < 60 then
    (k + 2,
     [{ id := generate_proposal_id (clock k)
        ptype := "threshold_adjust"
        data := some (PropData.threshold {
          metric := "success_rate_low"
          current_value := 70
          suggested_value := 60 })
        reason := some ("Current success rate (" ++ toString success_rate ++
          "%) is below threshold")
        message := none
        status := some "pending"
        timestamp := some (clock (k + 1))
        updated_at := none }])
  else (k, [])

/-- Section 4 of `generate_proposals` (harness-evolve.py:267-277): a
manual_review proposal wrapping each high-severity recommendation. -/
def genFromRecs (clock : Nat → Nat) :
    List Recommendation → Nat → Nat × List Proposal
  | [], k => (k, [])
  | rec :: rest, k =>
    if rec.severity = some "high" then
      let p : Proposal := {
        id := generate_proposal_id (clock k)
        ptype := "manual_review"
        data := some (PropData.review rec)
        reason := some "High severity issue requiring manual review"
        message := none
        status := some "pending"
        timestamp := some (clock (k + 1))
        updated_at := none }
      let kps := genFromRecs clock rest (k + 2)
      (kps.1, p :: kps.2)
    else genFromRecs clock rest k

/-- The informational proposal of the no-data branch
(harness-evolve.py:215-219); note it carries no `status` field. -/
def infoProposal (t : Nat) : Proposal :=
  { id := generate_proposal_id t
    ptype := "info"
    data := none
    reason := none
    message := some "Insufficient data for proposals. Continue using the harness."
    status := none
    timestamp := none
    updated_at := none }

/-- Embeds `generate_proposals` (harness-evolve.py:209). -/
def generate_proposals (md5 : String → String) (clock : Nat → Nat)
    (analysis : Option Analysis) (skills : List Skill) : List Proposal :=
  match analysis with
  | none => [infoProposal (clock 0)]
  | some a =>
    if a.status = some "no_data" then [infoProposal (clock 0)]
    else
      let s1 := genFromPatterns md5 clock skills a.common_missed_patterns 0
      let s2 := genFromIssues clock a.efficiency_issues s1.1
      let s3 := genThreshold clock a s2.1
      let s4 := genFromRecs clock a.recommendations s3.1
      s1.2 ++ s2.2 ++ s3.2 ++ s4.2

/-- Python `skill.get('skill_id')` of a proposal's payload (None when the payload
is not a skill dictionary). -/
def payloadSkillId : Option PropData → Option String
  | some (PropData.skillAdd sk) => some sk.skill_id
  | _ => none

/-- Python `skill.get('name')` rendered into the success message (`str(None)` is
"None"). -/
def payloadName : Option PropData → String
  | some (PropData.skillAdd sk) => sk.name
  | _ => "None"

/-- Python `data.get('from_tool')` / `data.get('to_tool')` rendered into the
routing message. -/
def payloadFrom : Option PropData → String
  | some (PropData.routing r) => r.from_tool
  | _ => "None"

def payloadTo : Option PropData → String
  | some (PropData.routing r) => r.to_tool
  | _ => "None"

def payloadMetric : Option PropData → String
  | some (PropData.threshold t) => t.metric
  | _ => "None"

/-- Embeds `backup_file` (harness-evolve.py:137): no-op returning `None` when the
file does not exist; otherwise copy it to
`<name>.<timestamp>.bak` in the backup directory and return that path.
`now` is the `datetime.now()` call of this invocation. -/
def backup_file (now : Nat) (st : EvoState) : Option String × EvoState :=
  match st.skillsFile with
  | none => (none, st)
  | some content =>
    let backup_name := "skills.jsonl." ++ toString now ++ ".bak"
    (some backup_name,
     { st with backups := insertBackup st.backups backup_name content })

/-- The per-record update of `update_proposal_status`: records with the
given id get the new status and an `updated_at` stamp. -/
def stampStatus (proposal_id status : String) (now : Nat) (p : Proposal) :
    Proposal :=
  if p.id = proposal_id then
    { p with status := some status, updated_at := some now }
  else p

/-- Embeds `update_proposal_status` (harness-evolve.py:380): rewrite the proposal
store, stamping every record with the given id. -/
def update_proposal_status (proposal_id status : String) (now : Nat)
    (st : EvoState) : EvoState :=
  { st with proposals := st.proposals.map (stampStatus proposal_id status now) }

/-- Embeds `apply_skill_add` (harness-evolve.py:317): back up the collection file,
append the serialized payload (`dumps`) as one record line, append a history
entry holding the backup path, mark the proposal applied.  `now` models the
`datetime.now()` calls of this invocation (they feed only the backup name
and metadata timestamps). -/
def apply_skill_add (dumps : Option PropData → String) (now : Nat)
    (proposal : Proposal) (st : EvoState) : (Bool × String) × EvoState :=
  let bk := backup_file now st
  let st1 := bk.2
  let st2 := { st1 with
    skillsFile := some ((st1.skillsFile.getD "") ++ dumps proposal.data ++ "\n") }
  let st3 := { st2 with history := st2.history ++ [{
    timestamp := now
    htype := "skill_add"
    proposal_id := some proposal.id
    skill_id := payloadSkillId proposal.data
    data := none
    note := none
    backup := bk.1
    rolled_back := none
    restored_from := none }] }
  ((true, "Added skill: " ++ payloadName proposal.data),
   update_proposal_status proposal.id "applied" now st3)

/-- Embeds `apply_routing_update` (harness-evolve.py:346): no file mutation; append
a history entry and mark the proposal recorded. -/
def apply_routing_update (now : Nat) (proposal : Proposal) (st : EvoState) :
    (Bool × String) × EvoState :=
  let st1 := { st with history := st.history ++ [{
    timestamp := now
    htype := "routing_update"
    proposal_id := some proposal.id
    skill_id := none
    data := proposal.data
    note := some "Routing update recorded - manual review recommended"
    backup := none
    rolled_back := none
    restored_from := none }] }
  ((true, "Routing update recorded: " ++ payloadFrom proposal.data ++ " -> " ++
      payloadTo proposal.data),
   update_proposal_status proposal.id "recorded" now st1)

/-- Embeds `apply_threshold_adjust` (harness-evolve.py:364): no file mutation;
append a history entry and mark the proposal recorded. -/
def apply_threshold_adjust (now : Nat) (proposal : Proposal) (st : EvoState) :
    (Bool × String) × EvoState :=
  let st1 := { st with history := st.history ++ [{
    timestamp := now
    htype := "threshold_adjust"
    proposal_id := some proposal.id
    skill_id := none
    data := proposal.data
    note := some "Threshold adjustment recorded - manual update recommended"
    backup := none
    rolled_back := none
    restored_from := none }] }
  ((true, "Threshold adjustment recorded: " ++ payloadMetric proposal.data),
   update_proposal_status proposal.id "recorded" now st1)

/-- Embeds `apply_proposal` (harness-evolve.py:282): find the proposal, refuse if
its status is already `'applied'`, honour dry-run, then dispatch on type. -/
def apply_proposal (dumps : Option PropData → String) (now : Nat)
    (proposal_id : String) (dry_run : Bool) (st : EvoState) :
    (Bool × String) × EvoState :=
  match st.proposals.find? (fun p => p.id = proposal_id) with
  | none => ((false, "Proposal " ++ proposal_id ++ " not found"), st)
  | some proposal =>
    if proposal.status = some "applied" then
      ((false, "Proposal " ++ proposal_id ++ " already applied"), st)
    else if dry_run then
      ((true, "[DRY RUN] Would apply " ++ proposal.ptype ++ ": " ++
        proposal.reason.getD "None"), st)
    else if proposal.ptype = "skill_add" then
      apply_skill_add dumps now proposal st
    else if proposal.ptype = "routing_update" then
      apply_routing_update now proposal st
    else if proposal.ptype = "threshold_adjust" then
      apply_threshold_adjust now proposal st
    else if proposal.ptype = "manual_review" then
      ((false, "Manual review items cannot be auto-applied"), st)
    else
      ((false, "Unknown proposal type: " ++ proposal.ptype), st)

/-- Embeds `rollback_last` (harness-evolve.py:397): act on the most recent history
entry only; fail without history, without an existing backup, or for a type
other than skill_add; otherwise copy the backup back over the skill
collection and append a rollback history entry. -/
def rollback_last (now : Nat) (st : EvoState) : (Bool × String) × EvoState :=
  match st.history.getLast? with
  | none => ((false, "No history to rollback"), st)
  | some last =>
    match last.backup with
    | none => ((false, "No backup available for rollback"), st)
    | some backup_path =>
      match lookupBackup st.backups backup_path with
      | none => ((false, "No backup available for rollback"), st)
      | some content =>
        if last.htype = "skill_add" then
          ((true, "Rolled back " ++ last.htype ++ " from " ++
              toString last.timestamp),
           { st with
               skillsFile := some content
               history := st.history ++ [{
                 timestamp := now
                 htype := "rollback"
                 proposal_id := none
                 skill_id := none
                 data := none
                 note := none
                 backup := none
                 rolled_back := last.proposal_id
                 restored_from := some backup_path }] })
        else
          ((false, "Rollback not supported for type: " ++ last.htype), st)

/-- A frozen clock: every `datetime.now()` call of a run falls in the same
wall-clock second — the normal case for a generation loop that runs in
microseconds against a 1-second id granularity. -/
def constClock : Nat → Nat := fun _ => 1700000000

/-- A concrete digest oracle for closed evaluations. -/
def idHash : String → String := fun s => s

/-- An analysis with two distinct missed patterns, both above the count
threshold. -/
def c1Analysis : Analysis :=
  { status := some "ok"
    common_missed_patterns := [("deploy app", 3), ("fix tests", 4)]
    efficiency_issues := []
    success_rate := some 100
    recommendations := [] }

/-- An analysis with a routing issue that names a tool pair but whose text
lacks the word "pattern". -/
def c8Analysis : Analysis :=
  { status := some "ok"
    common_missed_patterns := []
    efficiency_issues := [{ issue := some "Read->Grep repeated", count := some 4 }]
    success_rate := some 100
    recommendations := [] }

/-- An analysis whose single routing issue qualifies: its text contains
"pattern" and the pair `Read->Grep`. -/
def c8GoodAnalysis : Analysis :=
  { status := some "ok"
    common_missed_patterns := []
    efficiency_issues :=
      [{ issue := some "Inefficient pattern Read->Grep", count := some 4 }]
    success_rate := some 100
    recommendations := [] }

/-- A concrete routing_update proposal already in status `'recorded'`. -/
def c2RecordedProp : Proposal :=
  { id := "prop_1"
    ptype := "routing_update"
    data := some (PropData.routing
      { from_tool := "Read", to_tool := "Grep", pattern := "x" })
    reason := some "r"
    message := none
    status := some "recorded"
    timestamp := some 0
    updated_at := some 0 }

/-- A concrete pending skill_add proposal and store for the C2/C3
witnesses. -/
def c23SkillProp : Proposal :=
  { id := "prop_9"
    ptype := "skill_add"
    data := some (PropData.skillAdd {
      skill_id := "skill_auto_x", name := "n", description := "d",
      triggers := ["t"], prerequisites := [], key_steps := [],
      tools_typically_used := [], estimated_tokens := 0, success_rate := 0,
      times_used := 0, last_used := none, created_from_session := "s" })
    reason := some "r"
    message := none
    status := some "pending"
    timestamp := some 0
    updated_at := none }

def c23State : EvoState :=
  { skillsFile := some "old-record\n"
    proposals := [c23SkillProp]
    history := []
    backups := [] }

/-- A concrete record serializer for closed evaluations. -/
def dumpsConst : Option PropData → String := fun _ => "new-record"

/-- Helper: the record `extract_skill` produces on a successful session whose
task has at least 10 characters. -/
theorem extract_skill_eq (md5 : String → String) (now : Nat) (sd : SessionData)
    (task : String) (ho : sd.outcome = some "success")
    (ht : sd.initial_task = some task) (h10 : 10 ≤ task.length) :
    extract_skill md5 now sd = some
      { skill_id := "skill_" ++ (md5 task).take 8
        name := strToLower (strReplaceChar (task.take 50) ' ' '-')
        description := task
        triggers :=
          (if captureKeywords.filter (fun kw => strContains (strToLower task) kw) = []
           then (pySplitWs (strToLower task)).take 3
           else captureKeywords.filter (fun kw => strContains (strToLower task) kw))
        tools_typically_used := sd.tools_used.getD []
        estimated_tokens := sd.tokens_used.getD 0
        success_rate := 1
        times_used := 1
        last_used := some now
        created_from_session := sd.session_id.getD ""
        key_steps := sd.key_decisions.getD [] } := by
  have hne : task ≠ "" := by
    intro h0
    rw [h0] at h10
    simp at h10
  unfold extract_skill
  rw [ho, ht]
  simp [hne, Nat.not_lt.mpr h10]

/-- Helper: `updateFirstSkill` on a store whose first match is `e`. -/
theorem updateFirstSkill_eq (inc : Skill) (pre post : List Skill) (e : Skill)
    (hpre : ∀ q ∈ pre, q.skill_id ≠ inc.skill_id)
    (he : e.skill_id = inc.skill_id) :
    updateFirstSkill inc (pre ++ e :: post) =
      some (pre ++
        { e with
            times_used := e.times_used + 1
            last_used := inc.last_used
            success_rate :=
              (e.success_rate * ((e.times_used : ℚ) + 1) + 1) /
                ((e.times_used : ℚ) + 2) } :: post) := by
  induction pre with
  | nil =>
    simp only [List.nil_append, updateFirstSkill, he, if_true]
    norm_num
    ring_nf
  | cons p pre ih =>
    have hp : p.skill_id ≠ inc.skill_id := hpre p (by simp)
    simp only [List.cons_append, updateFirstSkill, hp, if_false]
    rw [List.append_eq, ih (fun q hq => hpre q (by simp [hq]))]
    simp

/-- Claim C4, counterexample: merging a success into a stored skill with
`times_used = 2` and `success_rate = 1/2` yields `success_rate = 5/8`
(the code reads the already-incremented count), not the claimed
`(old_rate * old_count + 1) / (old_count + 1) = 2/3`. -/
theorem c4_merge_formula_counterexample :
    (save_skill (sampleSkill "s" "" [] 1 1)
        [sampleSkill "s" "" [] (1/2) 2]).map (fun s => s.success_rate) = [5/8]
    ∧ ((5 : ℚ)/8) ≠ ((1/2) * 2 + 1) / (2 + 1) := by
  constructor
  · simp [save_skill, updateFirstSkill, sampleSkill]
    norm_num
  · norm_num

/-- Claim C4 (amended): merging an incoming successful observation into the
first stored skill with the same `skill_id` increments `times_used` by 1,
sets `last_used` to the incoming timestamp, and recomputes `success_rate` as
`(old_rate * (old_count + 1) + 1) / (old_count + 2)` — i.e. the code
increments `times_used` *before* taking the mean, so the old rate is weighted
by `old_count + 1` rather than `old_count`; all other stored fields and all
other records are unchanged. -/
theorem c4_save_skill_merge (inc : Skill) (pre post : List Skill) (e : Skill)
    (hpre : ∀ q ∈ pre, q.skill_id ≠ inc.skill_id)
    (he : e.skill_id = inc.skill_id) :
    save_skill inc (pre ++ e :: post) =
      pre ++
        { e with
            times_used := e.times_used + 1
            last_used := inc.last_used
            success_rate :=
              (e.success_rate * ((e.times_used : ℚ) + 1) + 1) /
                ((e.times_used : ℚ) + 2) } :: post := by
  unfold save_skill
  rw [updateFirstSkill_eq inc pre post e hpre he]

/-- Claim C4, witness: the amended merge theorem evaluated on a concrete
two-skill store. -/
theorem c4_save_skill_merge_witness :
    (∀ q ∈ [sampleSkill "a" "" [] 1 1],
        q.skill_id ≠ (sampleSkill "s" "" [] 1 1).skill_id) ∧
    (save_skill (sampleSkill "s" "" [] 1 1)
        ([sampleSkill "a" "" [] 1 1] ++ sampleSkill "s" "" [] (1/2) 2 :: [])).map
      (fun s => (s.times_used, s.success_rate)) = [(1, 1), (3, 5/8)] := by
  constructor
  · decide
  · rw [c4_save_skill_merge (sampleSkill "s" "" [] 1 1)
        [sampleSkill "a" "" [] 1 1] [] (sampleSkill "s" "" [] (1/2) 2)
        (by decide) (by decide)]
    simp [sampleSkill]
    norm_num

/-- Claim C5: saving the skill extracted from the same ≥10-character task
twice, both runs successful, leaves a single stored record with
`times_used = 2` and `success_rate = 1`. -/
theorem c5_add_same_task_twice (md5 : String → String) (task : String)
    (h10 : 10 ≤ task.length) (n1 n2 : Nat) (sd1 sd2 : SessionData)
    (ho1 : sd1.outcome = some "success") (ht1 : sd1.initial_task = some task)
    (ho2 : sd2.outcome = some "success") (ht2 : sd2.initial_task = some task) :
    ∃ sk1 sk2,
      extract_skill md5 n1 sd1 = some sk1 ∧
      extract_skill md5 n2 sd2 = some sk2 ∧
      (save_skill sk2 (save_skill sk1 [])).map
        (fun s => (s.times_used, s.success_rate)) = [(2, 1)] := by
  refine ⟨_, _, extract_skill_eq md5 n1 sd1 task ho1 ht1 h10,
    extract_skill_eq md5 n2 sd2 task ho2 ht2 h10, ?_⟩
  simp [save_skill, updateFirstSkill]
  norm_num

/-- Claim C5, witness: the double-add theorem evaluated on the concrete task
"implement authentication". -/
theorem c5_add_same_task_twice_witness :
    10 ≤ ("implement authentication" : String).length ∧
    ∃ sk1 sk2,
      extract_skill id 0 (sampleSession "implement authentication") = some sk1 ∧
      extract_skill id 1 (sampleSession "implement authentication") = some sk2 ∧
      (save_skill sk2 (save_skill sk1 [])).map
        (fun s => (s.times_used, s.success_rate)) = [(2, 1)] :=
  ⟨by decide,
   c5_add_same_task_twice id "implement authentication" (by decide) 0 1
     (sampleSession "implement authentication")
     (sampleSession "implement authentication") rfl rfl rfl rfl⟩

@[simp] theorem sessionRecordOf_outcome (now : Nat) (cwd sid : String)
    (w : WorkingMem) : (sessionRecordOf now cwd sid w).outcome = some "success" :=
  rfl

@[simp] theorem sessionRecordOf_initial_task (now : Nat) (cwd sid : String)
    (w : WorkingMem) : (sessionRecordOf now cwd sid w).initial_task =
      some (w.current_task.getD "Unknown task") :=
  rfl

/-- Helper: a successful update always keeps a record carrying the incoming
`skill_id`. -/
theorem updateFirstSkill_mem_id (sk : Skill) :
    ∀ (store l' : List Skill), updateFirstSkill sk store = some l' →
      ∃ s ∈ l', s.skill_id = sk.skill_id
  | [], l', h => by simp [updateFirstSkill] at h
  | e :: rest, l', h => by
    by_cases hid : e.skill_id = sk.skill_id
    · simp only [updateFirstSkill, hid, if_true, Option.some.injEq] at h
      subst h
      exact ⟨_, List.mem_cons_self _ _, rfl⟩
    · simp only [updateFirstSkill, hid, if_false, Option.map_eq_some'] at h
      obtain ⟨l'', hl'', rfl⟩ := h
      obtain ⟨s, hs, hsid⟩ := updateFirstSkill_mem_id sk rest l'' hl''
      exact ⟨s, List.mem_cons_of_mem _ hs, hsid⟩

/-- Helper: after `save_skill` the collection holds a record with the
incoming `skill_id` (merged or newly appended). -/
theorem save_skill_mem_id (sk : Skill) (store : List Skill) :
    ∃ s ∈ save_skill sk store, s.skill_id = sk.skill_id := by
  unfold save_skill
  cases h : updateFirstSkill sk store with
  | none => exact ⟨sk, by simp, rfl⟩
  | some l' => exact updateFirstSkill_mem_id sk store l' h

/-- Claim C10: `capture_session` always records the outcome as `'success'`
(the field is a literal, not derived from input): one record with
`outcome = "success"` is appended to the successes collection and to the
session store, the failures collection is never touched (the failure branch
is unreachable), and whenever the captured task description has at least 10
characters a skill with the task's content-hash id is created or merged in
the skill store. -/
theorem c10_capture_outcome_fixed (md5 : String → String) (now : Nat)
    (today cwd : String) (st : CaptureState) :
    (∃ rec, (capture_session md5 now today cwd st).successes =
        st.successes ++ [rec] ∧ rec.outcome = "success") ∧
    (capture_session md5 now today cwd st).failures = st.failures ∧
    (∃ sid sd, (capture_session md5 now today cwd st).sessions =
        st.sessions ++ [(sid, sd)] ∧ sd.outcome = some "success") ∧
    (10 ≤ ((st.working.getD emptyWorking).current_task.getD
        "Unknown task").length →
      ∃ s ∈ (capture_session md5 now today cwd st).skills,
        s.skill_id = "skill_" ++
          (md5 ((st.working.getD emptyWorking).current_task.getD
            "Unknown task")).take 8) := by
  cases hex : extract_skill md5 now
      (sessionRecordOf now cwd (get_session_id today st.sessions)
        (st.working.getD emptyWorking)) with
  | none =>
    refine ⟨⟨outcomeRecordOf now (get_session_id today st.sessions) cwd
        (st.working.getD emptyWorking), ?_, rfl⟩, ?_,
      ⟨get_session_id today st.sessions,
        sessionRecordOf now cwd (get_session_id today st.sessions)
          (st.working.getD emptyWorking), ?_, rfl⟩, fun h10 => ?_⟩
    · simp [capture_session, hex]
    · simp [capture_session, hex]
    · simp [capture_session, hex]
    · rw [extract_skill_eq md5 now _ _ rfl rfl h10] at hex
      exact absurd hex (by simp)
  | some sk =>
    refine ⟨⟨outcomeRecordOf now (get_session_id today st.sessions) cwd
        (st.working.getD emptyWorking), ?_, rfl⟩, ?_,
      ⟨get_session_id today st.sessions,
        sessionRecordOf now cwd (get_session_id today st.sessions)
          (st.working.getD emptyWorking), ?_, rfl⟩, fun h10 => ?_⟩
    · simp [capture_session, hex]
    · simp [capture_session, hex]
    · simp [capture_session, hex]
    · have hbig := extract_skill_eq md5 now
        (sessionRecordOf now cwd (get_session_id today st.sessions)
          (st.working.getD emptyWorking))
        ((st.working.getD emptyWorking).current_task.getD "Unknown task")
        rfl rfl h10
      have hsk := Option.some.inj (hbig.symm.trans hex)
      have hid : sk.skill_id = "skill_" ++
          (md5 ((st.working.getD emptyWorking).current_task.getD
            "Unknown task")).take 8 := by
        rw [← hsk]
      have hmem := save_skill_mem_id sk st.skills
      have hskills : (capture_session md5 now today cwd st).skills =
          save_skill sk st.skills := by
        simp [capture_session, hex]
      rw [hskills]
      obtain ⟨s, hs, hsid⟩ := hmem
      exact ⟨s, hs, hsid.trans hid⟩

/-- Claim C10, witness: the theorem evaluated on a concrete state with the
task "implement authentication" in working memory. -/
theorem c10_capture_outcome_fixed_witness :
    10 ≤ ((c10State.working.getD emptyWorking).current_task.getD
      "Unknown task").length ∧
    ∃ s ∈ (capture_session id 0 "2026-01-01" "/w" c10State).skills,
      s.skill_id = "skill_implemen" := by
  have h := c10_capture_outcome_fixed id 0 "2026-01-01" "/w" c10State
  refine ⟨by decide, ?_⟩
  obtain ⟨s, hs, hsid⟩ := h.2.2.2 (by decide)
  exact ⟨s, hs, by rw [hsid]; decide⟩

/-- Helper: the scored list built by `match_skills` is the positive-score
skills paired with their scores. -/
theorem scored_eq (task : String) (skills : List Skill) :
    (skills.filterMap (fun skill =>
      if 0 < matchScore task skill then some (matchScore task skill, skill)
      else none)) =
    (skills.filter (fun s => 0 < matchScore task s)).map
      (fun s => (matchScore task s, s)) := by
  induction skills with
  | nil => rfl
  | cons s rest ih =>
    by_cases h : 0 < matchScore task s
    · simp [h, ih]
    · simp [h, ih]

/-- Helper: inserting an index-tagged skill whose index is below every index
of an (already sorted) tagged list, the lexicographic insert mirrors the
plain descending-score insert on the underlying skills. -/
theorem mapSnd_orderedInsert_lex (task : String) (p : Nat × Skill) :
    ∀ L : List (Nat × Skill), (∀ q ∈ L, p.1 < q.1) →
      ((L.orderedInsert (lexScoreIdx task) p).map (fun q => q.2)) =
        (L.map (fun q => q.2)).orderedInsert (skillDescLe task) p.2
  | [], _ => rfl
  | q :: L, hL => by
    have hq : p.1 < q.1 := hL q (List.mem_cons_self _ _)
    have hiff : lexScoreIdx task p q ↔ skillDescLe task p.2 q.2 := by
      unfold lexScoreIdx skillDescLe
      omega
    simp only [List.orderedInsert, List.map_cons]
    by_cases h : lexScoreIdx task p q
    · rw [if_pos h, if_pos (hiff.mp h)]
      rfl
    · rw [if_neg h, if_neg (fun hs => h (hiff.mpr hs)), List.map_cons,
        mapSnd_orderedInsert_lex task p L
          (fun r hr => hL r (List.mem_cons_of_mem _ hr))]

/-- Helper: stable sorting the index-tagged list by (score, index) and
projecting equals stable sorting the skills by score. -/
theorem mapSnd_insertionSort_enumFrom (task : String) :
    ∀ (i : Nat) (l : List Skill),
      (((l.enumFrom i).insertionSort (lexScoreIdx task)).map (fun q => q.2)) =
        l.insertionSort (skillDescLe task)
  | _, [] => rfl
  | i, a :: l => by
    rw [List.enumFrom_cons, List.insertionSort, List.insertionSort,
      mapSnd_orderedInsert_lex task (i, a) _ (fun q hq => ?_),
      mapSnd_insertionSort_enumFrom task (i + 1) l]
    have hmem : q ∈ l.enumFrom (i + 1) := (List.mem_insertionSort _).1 hq
    have := List.fst_lt_add_of_mem_enumFrom hmem
    have := List.le_fst_of_mem_enumFrom hmem
    omega

/-- Claim C7, counterexample: with task "cat" and a single skill whose
description is "cats" (no triggers), the claimed score is `0` — no
description word occurs in the task — so the claim says the skill is
excluded; the code nevertheless returns it, because it counts *task* tokens
occurring in the description ("cat" ⊆ "cats"). -/
theorem c7_match_skills_counterexample :
    match_skills "cat" [sampleSkill "A" "cats" [] 1 1] =
      [sampleSkill "A" "cats" [] 1 1]
    ∧ claimedScoreC7 "cat" (sampleSkill "A" "cats" [] 1 1) = 0 := by
  constructor
  · decide
  · decide

/-- Claim C7 (amended): `match_skills` returns exactly the top 3 (or fewer)
positive-scoring skills ordered by descending score — where the score is
`2 × (triggers contained in the lowercased task)` plus the number of
distinct task word-tokens occurring as substrings of the lowercased
description — with ties broken by original collection order. -/
theorem c7_match_skills_correct (task : String) (skills : List Skill) :
    match_skills task skills = amendedMatch task skills := by
  by_cases htask : task = ""
  · simp [match_skills, amendedMatch, htask]
  · simp only [match_skills, amendedMatch, htask, if_false,
      scored_eq task skills, List.enum_eq_enumFrom,
      mapSnd_insertionSort_enumFrom task 0
        (skills.filter (fun s => 0 < matchScore task s)),
      List.map_take]
    congr 1
    rw [List.map_insertionSort pairDescLe (skillDescLe task)
      (fun q => q.2) _ ?_, List.map_map]
    · have hcomp : ((fun q : Nat × Skill => q.2) ∘
          fun s : Skill => (matchScore task s, s)) = fun s => s := rfl
      rw [hcomp, List.map_id']
    · intro a ha b hb
      simp only [List.mem_map] at ha hb
      obtain ⟨sa, -, rfl⟩ := ha
      obtain ⟨sb, -, rfl⟩ := hb
      exact Iff.rfl

/-- Claim C6, counterexample: on the empty record sequence (estimated cost
`0 ≤ max_tokens`) the result returned by `compress_messages` carries no
`token_reduction` value at all (the source's early return omits the key), so
`token_reduction = 0` fails. -/
theorem c6_compress_empty_counterexample :
    (compress_messages (fun l => l.dedup) [] 5 10 4000).token_reduction = none
    ∧ (none : Option ℚ) ≠ some 0 := by
  constructor
  · rfl
  · decide

/-- Claim C6 (amended): for every *non-empty* record sequence whose estimated
token cost (`Σ len(str(record)) // 4`) is at most `max_tokens`,
`compress_messages` returns the full sequence as `head`, an empty summary,
an empty tail, and `token_reduction = 0`; on the empty sequence the result
has empty head/summary/tail but no counts and no reduction value. -/
theorem c6_compress_small_noop (pyset : List String → List String)
    (messages : List Message) (head_count tail_count max_tokens : Nat)
    (hne : messages ≠ [])
    (hsmall : (messages.map (fun m => estimate_tokens m.strRepr)).sum ≤
      max_tokens) :
    compress_messages pyset messages head_count tail_count max_tokens =
      { head := messages, summary := "", tail := [], key_points := [],
        original_count := some messages.length,
        compressed_count := some messages.length,
        token_reduction := some 0 } := by
  unfold compress_messages
  rw [if_neg hne, if_pos hsmall]

/-- Claim C6, witness: a one-record sequence of estimated cost 5 ≤ 4000. -/
theorem c6_compress_small_noop_witness :
    ([Message.mk "hello" "repr-of-hello-dict-x"] ≠ ([] : List Message)) ∧
    (([Message.mk "hello" "repr-of-hello-dict-x"].map
      (fun m => estimate_tokens m.strRepr)).sum ≤ 4000) ∧
    compress_messages (fun l => l.dedup)
        [Message.mk "hello" "repr-of-hello-dict-x"] 5 10 4000 =
      { head := [Message.mk "hello" "repr-of-hello-dict-x"], summary := "",
        tail := [], key_points := [], original_count := some 1,
        compressed_count := some 1, token_reduction := some 0 } :=
  ⟨by decide, by decide,
   c6_compress_small_noop (fun l => l.dedup)
     [Message.mk "hello" "repr-of-hello-dict-x"] 5 10 4000
     (by decide) (by decide)⟩

/-- Helper: `pyTakeLast n l` is a suffix of `l`. -/
theorem pyTakeLast_suffix (n : Nat) (l : List α) : pyTakeLast n l <:+ l := by
  unfold pyTakeLast
  split
  · exact List.suffix_refl l
  · exact List.drop_suffix _ l

/-- Helper: for positive `n`, `pyTakeLast n l` has `min n l.length`
elements. -/
theorem pyTakeLast_length (n : Nat) (hn : n ≠ 0) (l : List α) :
    (pyTakeLast n l).length = min n l.length := by
  unfold pyTakeLast
  rw [if_neg hn, List.length_drop]
  omega

/-- Claim C9, counterexample: `pysetRotate` is a valid set enumeration (a
permutation of the deduplicated union), yet under it the new key point "q"
— the most recently inserted of 21 distinct points — is the one evicted,
while the claim's "20 most recently inserted" retention would keep it. -/
theorem c9_recency_counterexample :
    (pysetRotate (c9Old ++ ["q"])).Perm ((c9Old ++ ["q"]).dedup) ∧
    "q" ∉ (update_persistent_summary pysetRotate 0 "s" ["q"]
        (PersistentDigest.mk [] c9Old none)).accumulated_key_points ∧
    "q" ∈ pyTakeLast 20 (c9Old ++ ["q"]) := by
  refine ⟨?_, ?_, ?_⟩
  · decide
  · decide
  · decide

/-- Claim C9 (amended): after every digest update (every compression that
produced a non-empty summary), the summaries are the at most 5 most recent
ones — exactly `min (old + 1) 5` of them, a suffix of the appended
sequence — and the accumulated key points are at most 20 deduplicated
entries drawn from the old points and the new ones; *which* 20 survive
depends on the unspecified Python set enumeration order, not on insertion
recency.  `last_updated` is stamped with the update time. -/
theorem c9_digest_caps (pyset : List String → List String)
    (hp : ∀ l, (pyset l).Perm l.dedup) (now : Nat) (s : String)
    (kps : List String) (d d' : PersistentDigest)
    (hd' : d' = update_persistent_summary pyset now s kps d) :
    d'.summaries.length = min (d.summaries.length + 1) 5 ∧
    d'.summaries <:+ d.summaries ++ [(now, s)] ∧
    d'.accumulated_key_points.length ≤ 20 ∧
    d'.accumulated_key_points.Nodup ∧
    (∀ x ∈ d'.accumulated_key_points,
      x ∈ d.accumulated_key_points ∨ x ∈ kps) ∧
    d'.last_updated = some now := by
  subst hd'
  unfold update_persistent_summary
  dsimp only
  refine ⟨?_, ?_, ?_, ?_, ?_, rfl⟩
  · rw [pyTakeLast_length 5 (by decide) _]
    simp [Nat.min_comm]
  · exact pyTakeLast_suffix _ _
  · have hlen := pyTakeLast_length 20 (by decide)
      (pyset (d.accumulated_key_points ++ kps))
    simp only [hlen]
    omega
  · have hnd : (pyset (d.accumulated_key_points ++ kps)).Nodup :=
      (hp _).nodup_iff.mpr (List.nodup_dedup _)
    exact hnd.sublist (pyTakeLast_suffix _ _).sublist
  · intro x hx
    have hx1 : x ∈ pyset (d.accumulated_key_points ++ kps) :=
      (pyTakeLast_suffix _ _).sublist.subset hx
    have hx2 : x ∈ (d.accumulated_key_points ++ kps).dedup :=
      (hp _).subset hx1
    rw [List.mem_dedup] at hx2
    exact List.mem_append.mp hx2

/-- Claim C9, witness: the digest-cap theorem at a concrete update — a sixth
summary arrives (one is evicted) and a 21st distinct key point arrives under
the reference enumeration `dedup` (one point is dropped). -/
theorem c9_digest_caps_witness :
    (∀ l : List String, ((fun l : List String => l.dedup) l).Perm l.dedup) ∧
    ((update_persistent_summary (fun l => l.dedup) 9 "s6" ["q"]
        (PersistentDigest.mk
          [(1, "s1"), (2, "s2"), (3, "s3"), (4, "s4"), (5, "s5")]
          c9Old none)).summaries.length = min (5 + 1) 5 ∧
      (update_persistent_summary (fun l => l.dedup) 9 "s6" ["q"]
        (PersistentDigest.mk
          [(1, "s1"), (2, "s2"), (3, "s3"), (4, "s4"), (5, "s5")]
          c9Old none)).summaries <:+
        [(1, "s1"), (2, "s2"), (3, "s3"), (4, "s4"), (5, "s5")] ++ [(9, "s6")] ∧
      (update_persistent_summary (fun l => l.dedup) 9 "s6" ["q"]
        (PersistentDigest.mk
          [(1, "s1"), (2, "s2"), (3, "s3"), (4, "s4"), (5, "s5")]
          c9Old none)).accumulated_key_points.length ≤ 20 ∧
      (update_persistent_summary (fun l => l.dedup) 9 "s6" ["q"]
        (PersistentDigest.mk
          [(1, "s1"), (2, "s2"), (3, "s3"), (4, "s4"), (5, "s5")]
          c9Old none)).accumulated_key_points.Nodup ∧
      (∀ x ∈ (update_persistent_summary (fun l => l.dedup) 9 "s6" ["q"]
        (PersistentDigest.mk
          [(1, "s1"), (2, "s2"), (3, "s3"), (4, "s4"), (5, "s5")]
          c9Old none)).accumulated_key_points, x ∈ c9Old ∨ x ∈ ["q"]) ∧
      (update_persistent_summary (fun l => l.dedup) 9 "s6" ["q"]
        (PersistentDigest.mk
          [(1, "s1"), (2, "s2"), (3, "s3"), (4, "s4"), (5, "s5")]
          c9Old none)).last_updated = some 9) :=
  ⟨fun l => List.Perm.refl _,
   c9_digest_caps (fun l => l.dedup) (fun l => List.Perm.refl _) 9 "s6" ["q"]
     (PersistentDigest.mk
       [(1, "s1"), (2, "s2"), (3, "s3"), (4, "s4"), (5, "s5")] c9Old none)
     _ rfl⟩

/-- Claim C1: with an empty skill store and an analysis holding two missed
patterns, a run whose `datetime.now()` calls fall within one second emits
two proposals carrying the *same* id `prop_<second>` — `generate_proposal_id`
is only second-granular, so ids are neither unique nor strictly increasing,
contradicting the claim and the function's own docstring ("Generate unique
proposal ID").  Both proposals do start as `pending`. -/
theorem c1_duplicate_ids_code_bug :
    (generate_proposals idHash constClock (some c1Analysis) []).map
      (fun p => p.id) = ["prop_1700000000", "prop_1700000000"] ∧
    (generate_proposals idHash constClock (some c1Analysis) []).map
      (fun p => p.status) = [some "pending", some "pending"] := by
  constructor
  · decide
  · decide

/-- Claim C8, counterexample: the issue text "Read->Grep repeated" contains
the tool pair `Read->Grep`, yet `generate_proposals` emits nothing, because
the code additionally requires the substring "pattern" in the lowercased
issue text. -/
theorem c8_missing_pattern_token_counterexample :
    generate_proposals idHash constClock (some c8Analysis) [] = [] ∧
    findToolPair ("Read->Grep repeated".data) = some ("Read", "Grep") := by
  constructor
  · decide
  · decide

/-- Helper: every issue that passes both the "pattern" test and the tool-pair
regex contributes a routing_update proposal to section 2, whatever the clock
counter. -/
theorem genFromIssues_mem (clock : Nat → Nat) (issue : Issue)
    (ab : String × String)
    (hpat : strContains (strToLower (issue.issue.getD "")) "pattern" = true)
    (hpair : findToolPair (issue.issue.getD "").data = some ab) :
    ∀ (issues : List Issue) (k : Nat), issue ∈ issues →
      ∃ p ∈ (genFromIssues clock issues k).2,
        p.ptype = "routing_update" ∧
        p.data = some (propose_routing_update ab.1 ab.2 (issue.count.getD 0)).1 ∧
        p.reason = some (propose_routing_update ab.1 ab.2 (issue.count.getD 0)).2 ∧
        p.status = some "pending"
  | [], _, h => absurd h (List.not_mem_nil issue)
  | i :: rest, k, h => by
    rcases List.mem_cons.mp h with rfl | hrest
    · simp only [genFromIssues, hpat, if_true, hpair]
      exact ⟨_, List.mem_cons_self _ _, rfl, rfl, rfl, rfl⟩
    · by_cases hc : strContains (strToLower (i.issue.getD "")) "pattern" = true
      · cases hfp : findToolPair (i.issue.getD "").data with
        | some ab' =>
          simp only [genFromIssues, hc, if_true, hfp]
          obtain ⟨p, hp, hprops⟩ :=
            genFromIssues_mem clock issue ab hpat hpair rest (k + 2) hrest
          exact ⟨p, List.mem_cons_of_mem _ hp, hprops⟩
        | none =>
          simp only [genFromIssues, hc, if_true, hfp]
          exact genFromIssues_mem clock issue ab hpat hpair rest k hrest
      · simp only [genFromIssues, hc, if_false]
        exact genFromIssues_mem clock issue ab hpat hpair rest k hrest

/-- Claim C8 (amended): for every routing-efficiency issue whose description
contains the substring "pattern" (case-insensitively) *and* a `toolA->toolB`
token pair, `generate_proposals` emits a pending routing_update proposal
referencing that pair and the issue's observed frequency count. -/
theorem c8_routing_update_emitted (md5 : String → String) (clock : Nat → Nat)
    (a : Analysis) (skills : List Skill) (issue : Issue) (ab : String × String)
    (hmem : issue ∈ a.efficiency_issues)
    (hpat : strContains (strToLower (issue.issue.getD "")) "pattern" = true)
    (hpair : findToolPair (issue.issue.getD "").data = some ab)
    (hnd : ¬ a.status = some "no_data") :
    ∃ p ∈ generate_proposals md5 clock (some a) skills,
      p.ptype = "routing_update" ∧
      p.data = some (PropData.routing {
        from_tool := ab.1
        to_tool := ab.2
        pattern := "auto-detected from " ++ toString (issue.count.getD 0) ++
          " occurrences" }) ∧
      p.reason = some (ab.2 ++ " was suggested " ++
        toString (issue.count.getD 0) ++ " times when " ++ ab.1 ++
        " was used") ∧
      p.status = some "pending" := by
  obtain ⟨p, hp, h1, h2, h3, h4⟩ := genFromIssues_mem clock issue ab hpat hpair
    a.efficiency_issues
    (genFromPatterns md5 clock skills a.common_missed_patterns 0).1 hmem
  refine ⟨p, ?_, h1, h2, h3, h4⟩
  unfold generate_proposals
  dsimp only
  rw [if_neg hnd]
  exact List.mem_append.mpr (Or.inl (List.mem_append.mpr (Or.inl
    (List.mem_append.mpr (Or.inr hp)))))

/-- Claim C8, witness: the amended theorem evaluated on a qualifying
concrete issue. -/
theorem c8_routing_update_emitted_witness :
    ((Issue.mk (some "Inefficient pattern Read->Grep") (some 4)) ∈
      c8GoodAnalysis.efficiency_issues) ∧
    (strContains (strToLower ((Issue.mk (some "Inefficient pattern Read->Grep")
      (some 4)).issue.getD "")) "pattern" = true) ∧
    (findToolPair ((Issue.mk (some "Inefficient pattern Read->Grep")
      (some 4)).issue.getD "").data = some ("Read", "Grep")) ∧
    ∃ p ∈ generate_proposals idHash constClock (some c8GoodAnalysis) [],
      p.ptype = "routing_update" ∧
      p.data = some (PropData.routing {
        from_tool := "Read"
        to_tool := "Grep"
        pattern := "auto-detected from " ++ toString
          ((Issue.mk (some "Inefficient pattern Read->Grep")
            (some 4)).count.getD 0) ++ " occurrences" }) ∧
      p.reason = some ("Grep" ++ " was suggested " ++ toString
          ((Issue.mk (some "Inefficient pattern Read->Grep")
            (some 4)).count.getD 0) ++ " times when " ++ "Read" ++
          " was used") ∧
      p.status = some "pending" :=
  ⟨by decide, by decide, by decide,
   c8_routing_update_emitted idHash constClock c8GoodAnalysis []
     (Issue.mk (some "Inefficient pattern Read->Grep") (some 4))
     ("Read", "Grep") (by decide) (by decide) (by decide) (by decide)⟩

/-- Helper: restoring a backup by the path it was just written under yields
the content that was written (`shutil.copy` overwrite semantics). -/
theorem lookupBackup_insertBackup (n c : String) :
    ∀ b : List (String × String), lookupBackup (insertBackup b n c) n = some c
  | [] => by simp [insertBackup, lookupBackup]
  | (m, d) :: rest => by
    by_cases h : m = n
    · simp [insertBackup, lookupBackup, h]
    · simp [insertBackup, lookupBackup, h, lookupBackup_insertBackup n c rest]

/-- Helper: stamping a status does not move records, so the first record
with a given id is the stamped original. -/
theorem find_stampStatus (pid status : String) (now : Nat) :
    ∀ l : List Proposal,
      (l.map (stampStatus pid status now)).find? (fun q => q.id = pid) =
        (l.find? (fun q => q.id = pid)).map (stampStatus pid status now)
  | [] => rfl
  | p :: rest => by
    by_cases h : p.id = pid
    · have hup : (stampStatus pid status now p).id = pid := by
        simp [stampStatus, h]
      rw [List.map_cons, List.find?_cons_of_pos _ (by simp [hup]),
        List.find?_cons_of_pos _ (by simp [h])]
      rfl
    · have hup : ¬ (stampStatus pid status now p).id = pid := by
        simp [stampStatus, h]
      rw [List.map_cons, List.find?_cons_of_neg _ (by simp [hup]),
        List.find?_cons_of_neg _ (by simp [h])]
      exact find_stampStatus pid status now rest

/-- Helper: a found pending skill_add proposal routes `apply_proposal`
(non-dry-run) into `apply_skill_add`. -/
theorem apply_proposal_skill_add_eq (dumps : Option PropData → String)
    (now : Nat) (pid : String) (st : EvoState) (p : Proposal)
    (hfind : st.proposals.find? (fun q => q.id = pid) = some p)
    (hstatus : ¬ p.status = some "applied")
    (htype : p.ptype = "skill_add") :
    apply_proposal dumps now pid false st = apply_skill_add dumps now p st := by
  unfold apply_proposal
  rw [hfind]
  dsimp only
  rw [if_neg hstatus, if_neg (by simp), if_pos htype]

/-- Helper: the state produced by `apply_skill_add` — one record line is
appended to the collection, the proposal store is stamped, the history
grows, and the call reports success. -/
theorem apply_skill_add_state (dumps : Option PropData → String) (now : Nat)
    (p : Proposal) (st : EvoState) :
    (apply_skill_add dumps now p st).1.1 = true ∧
    (apply_skill_add dumps now p st).2.skillsFile =
      some ((st.skillsFile.getD "") ++ dumps p.data ++ "\n") ∧
    (apply_skill_add dumps now p st).2.proposals =
      st.proposals.map (stampStatus p.id "applied" now) := by
  cases hsf : st.skillsFile with
  | none =>
    refine ⟨?_, ?_, ?_⟩ <;>
      simp [apply_skill_add, backup_file, update_proposal_status, hsf]
  | some c =>
    refine ⟨?_, ?_, ?_⟩ <;>
      simp [apply_skill_add, backup_file, update_proposal_status, hsf]

/-- Claim C2 (amended): (a) for every proposal whose status is already
`'applied'`, `apply_proposal` returns failure and leaves the entire state —
skill collection, proposal store, history, backups — unchanged (a proposal
whose status is `'recorded'` is *not* guarded, see the counterexample);
(b) applying the same pending skill_add proposal id twice (non-dry-run)
succeeds the first time, appends exactly one new record line to the skill
collection, and the second call fails with "already applied" leaving the
state unchanged. -/
theorem c2_apply_once_guard (dumps : Option PropData → String) :
    (∀ (now : Nat) (pid : String) (dry : Bool) (st : EvoState) (p : Proposal),
        st.proposals.find? (fun q => q.id = pid) = some p →
        p.status = some "applied" →
        apply_proposal dumps now pid dry st =
          ((false, "Proposal " ++ pid ++ " already applied"), st)) ∧
    (∀ (now1 now2 : Nat) (pid : String) (st : EvoState) (p : Proposal),
        st.proposals.find? (fun q => q.id = pid) = some p →
        p.ptype = "skill_add" →
        ¬ p.status = some "applied" →
        (apply_proposal dumps now1 pid false st).1.1 = true ∧
        (apply_proposal dumps now1 pid false st).2.skillsFile =
          some ((st.skillsFile.getD "") ++ dumps p.data ++ "\n") ∧
        apply_proposal dumps now2 pid false
            (apply_proposal dumps now1 pid false st).2 =
          ((false, "Proposal " ++ pid ++ " already applied"),
           (apply_proposal dumps now1 pid false st).2)) := by
  have guard : ∀ (now : Nat) (pid : String) (dry : Bool) (st : EvoState)
      (p : Proposal),
      st.proposals.find? (fun q => q.id = pid) = some p →
      p.status = some "applied" →
      apply_proposal dumps now pid dry st =
        ((false, "Proposal " ++ pid ++ " already applied"), st) := by
    intro now pid dry st p hfind hstatus
    unfold apply_proposal
    rw [hfind]
    dsimp only
    rw [if_pos hstatus]
  refine ⟨guard, ?_⟩
  intro now1 now2 pid st p hfind htype hstatus
  have hpid : p.id = pid := by
    have := List.find?_some hfind
    simpa using this
  rw [apply_proposal_skill_add_eq dumps now1 pid st p hfind hstatus htype]
  obtain ⟨hok, hsf, hprops⟩ := apply_skill_add_state dumps now1 p st
  refine ⟨hok, hsf, ?_⟩
  have hfind2 : (apply_skill_add dumps now1 p st).2.proposals.find?
      (fun q => q.id = pid) =
      some (stampStatus p.id "applied" now1 p) := by
    rw [hprops, ← hpid, find_stampStatus p.id "applied" now1 st.proposals,
      hpid, hfind]
    rfl
  have hstamped : (stampStatus p.id "applied" now1 p).status = some "applied" := by
    simp [stampStatus]
  exact guard now2 pid false _ _ hfind2 hstamped

/-- Claim C2, counterexample: a proposal whose status is already `'recorded'`
is applied *again* — the call succeeds and appends a second history entry,
so the claim's "'applied' or 'recorded' → failure, state unchanged" is
false for `'recorded'`. -/
theorem c2_recorded_reapplied_counterexample :
    (apply_proposal (fun _ => "r1") 5 "prop_1" false
      (EvoState.mk none [c2RecordedProp] [] [])).1.1 = true ∧
    (apply_proposal (fun _ => "r1") 5 "prop_1" false
      (EvoState.mk none [c2RecordedProp] [] [])).2.history ≠ [] := by
  constructor
  · decide
  · decide

/-- Claim C2, witness: the apply-once theorem evaluated on the concrete
pending skill_add proposal. -/
theorem c2_apply_once_guard_witness :
    (c23State.proposals.find? (fun q => q.id = "prop_9") = some c23SkillProp) ∧
    c23SkillProp.ptype = "skill_add" ∧
    (¬ c23SkillProp.status = some "applied") ∧
    ((apply_proposal dumpsConst 1 "prop_9" false c23State).1.1 = true ∧
     (apply_proposal dumpsConst 1 "prop_9" false c23State).2.skillsFile =
       some ((c23State.skillsFile.getD "") ++ dumpsConst c23SkillProp.data ++
         "\n") ∧
     apply_proposal dumpsConst 2 "prop_9" false
         (apply_proposal dumpsConst 1 "prop_9" false c23State).2 =
       ((false, "Proposal " ++ "prop_9" ++ " already applied"),
        (apply_proposal dumpsConst 1 "prop_9" false c23State).2)) :=
  ⟨by decide, rfl, by decide,
   (c2_apply_once_guard dumpsConst).2 1 2 "prop_9" c23State c23SkillProp
     (by decide) rfl (by decide)⟩

/-- Claim C3: applying a skill_add proposal while the skill collection file
exists first copies its exact content to the timestamped backup, then
appends the new record; an immediate `rollback_last` succeeds and restores
the collection file to its exact pre-apply byte content. -/
theorem c3_backup_rollback_roundtrip (dumps : Option PropData → String)
    (now1 now2 : Nat) (pid : String) (st : EvoState) (p : Proposal)
    (c : String)
    (hsf : st.skillsFile = some c)
    (hfind : st.proposals.find? (fun q => q.id = pid) = some p)
    (htype : p.ptype = "skill_add")
    (hstatus : ¬ p.status = some "applied") :
    (apply_proposal dumps now1 pid false st).2.skillsFile =
      some (c ++ dumps p.data ++ "\n") ∧
    lookupBackup (apply_proposal dumps now1 pid false st).2.backups
      ("skills.jsonl." ++ toString now1 ++ ".bak") = some c ∧
    (rollback_last now2 (apply_proposal dumps now1 pid false st).2).1.1 =
      true ∧
    (rollback_last now2 (apply_proposal dumps now1 pid false st).2).2.skillsFile =
      some c := by
  rw [apply_proposal_skill_add_eq dumps now1 pid st p hfind hstatus htype]
  unfold apply_skill_add backup_file update_proposal_status
  rw [hsf]
  dsimp only
  refine ⟨rfl, lookupBackup_insertBackup _ _ _, ?_, ?_⟩
  · unfold rollback_last
    rw [List.getLast?_concat]
    dsimp only
    rw [lookupBackup_insertBackup]
    rfl
  · unfold rollback_last
    rw [List.getLast?_concat]
    dsimp only
    rw [lookupBackup_insertBackup]
    rfl

/-- Claim C3, witness: the backup/rollback round trip evaluated on the
concrete store whose collection file holds "old-record\n". -/
theorem c3_backup_rollback_roundtrip_witness :
    (c23State.skillsFile = some "old-record\n") ∧
    (c23State.proposals.find? (fun q => q.id = "prop_9") = some c23SkillProp) ∧
    c23SkillProp.ptype = "skill_add" ∧
    (¬ c23SkillProp.status = some "applied") ∧
    ((apply_proposal dumpsConst 1 "prop_9" false c23State).2.skillsFile =
       some ("old-record\n" ++ dumpsConst c23SkillProp.data ++ "\n") ∧
     lookupBackup (apply_proposal dumpsConst 1 "prop_9" false c23State).2.backups
       ("skills.jsonl." ++ toString 1 ++ ".bak") = some "old-record\n" ∧
     (rollback_last 2 (apply_proposal dumpsConst 1 "prop_9" false
        c23State).2).1.1 = true ∧
     (rollback_last 2 (apply_proposal dumpsConst 1 "prop_9" false
        c23State).2).2.skillsFile = some "old-record\n") :=
  ⟨rfl, by decide, rfl, by decide,
   c3_backup_rollback_roundtrip dumpsConst 1 2 "prop_9" c23State c23SkillProp
     "old-record\n" rfl (by decide) rfl (by decide)⟩
